import Mathlib

/-!
Shallow embedding of the travel-app web chat client.

The repository code under verification is the Next.js client:
  apps/web/src/lib/api.ts   (sendMessage)
  apps/web/src/app/page.tsx (Home component: state, handleSubmit, render)

The client holds four pieces of React state (prompt, response, isLoading,
error), all initialised to empty / false.  On form submission it checks the
trimmed prompt, and if non-empty issues one POST to `${API_URL}/api/chat`
with JSON body { message } via sendMessage, then updates state from the
result.  The render shows the error card when `error` is truthy, the
response card when `response` is truthy, and disables the submit button
when `isLoading || !prompt.trim()`.

We model the network environment as a `FetchOutcome` (the behaviour fetch
exhibits for the one outbound call), and `handleSubmit` as a pure function
from the pre-state and that outcome to a trace recording the outbound
requests, the intermediate in-flight state, and the final state.
-/

/-- The JSON request body built in api.ts by `JSON.stringify({ message })`. -/
structure ChatRequest where
  message : String
deriving Repr, DecidableEq

/-- The parsed JSON response body, interface ChatResponse in api.ts. -/
structure ChatResponse where
  response : String
deriving Repr, DecidableEq

/-- An outbound HTTP request as assembled by `sendMessage` in api.ts. -/
structure Request where
  method : String
  url : String
  contentType : String
  body : ChatRequest
deriving Repr, DecidableEq

/-- Base URL of the proxy, api.ts line 1 (default when the env var is unset). -/
def API_URL : String := "http://localhost:8000"

/-- An HTTP response as observed through the fetch Response object: the
numeric status and the body as parsed by `res.json()`. -/
structure HttpResponse where
  status : Nat
  body : ChatResponse
deriving Repr, DecidableEq

/-- Definition of `res.ok` per the WHATWG fetch specification: status in the range 200-299. -/
def HttpResponse.ok (r : HttpResponse) : Bool :=
  decide (200 ≤ r.status) && decide (r.status ≤ 299)

/-- A JavaScript thrown value as discriminated by the catch clause in
page.tsx (`err instanceof Error ? err.message : "An error occurred"`):
either an Error carrying a message, or any non-Error value. -/
inductive Thrown where
  | jsError (message : String)
  | nonError
deriving Repr, DecidableEq

/-- Behaviour of the network environment for the single outbound fetch:
either the promise rejects with a thrown value (network failure), or an
HTTP response arrives. -/
inductive FetchOutcome where
  | reject (t : Thrown)
  | respond (r : HttpResponse)
deriving Repr, DecidableEq

/-- Function `sendMessage` from api.ts.  Builds the POST request to
`${API_URL}/api/chat` with body `JSON.stringify({ message })`; given the
environment outcome it either propagates the rejection, throws
`Error("API error: " + res.status)` when `!res.ok`, or returns the parsed
body.  The returned pair records the request it dispatched and the
settled result of the returned promise. -/
def sendMessage (message : String) (o : FetchOutcome) :
    Request × Except Thrown ChatResponse :=
  let req : Request :=
    { method := "POST"
      url := API_URL ++ "/api/chat"
      contentType := "application/json"
      body := { message := message } }
  match o with
  | .reject t => (req, .error t)
  | .respond r =>
      if r.ok then (req, .ok r.body)
      else (req, .error (.jsError ("API error: " ++ toString r.status)))

/-- JavaScript String.prototype.trim: remove leading and trailing
whitespace.  Embedded structurally over the character list so that it
reduces in the kernel (over the ASCII whitespace characters common to the
JS WhiteSpace and LineTerminator sets and Char.isWhitespace). -/
def jsTrim (s : String) : String :=
  ⟨((s.data.dropWhile Char.isWhitespace).reverse.dropWhile Char.isWhitespace).reverse⟩

/-- The React state of the Home component in page.tsx: the four useState
hooks prompt, response, isLoading, error. -/
structure ClientState where
  prompt : String
  response : String
  isLoading : Bool
  error : String
deriving Repr, DecidableEq

/-- The initial client state: all strings empty, not loading. -/
def initialState : ClientState :=
  { prompt := "", response := "", isLoading := false, error := "" }

/-- Everything observable about one invocation of the submit handler: the
outbound requests it dispatched, the state while the call was awaited
(none when no call was made), and the state after the handler finished. -/
structure SubmitTrace where
  requests : List Request
  inflight : Option ClientState
  final : ClientState
deriving Repr, DecidableEq

/-- The ternary in the catch clause of page.tsx:
`err instanceof Error ? err.message : "An error occurred"`. -/
def caughtMessage : Thrown → String
  | .jsError m => m
  | .nonError => "An error occurred"

/-- Function `handleSubmit` from page.tsx, as a function of the pre-state and the
network outcome.  Mirrors the source line by line: early return when the
trimmed prompt is empty; otherwise set isLoading true and clear error and
response, await `sendMessage(prompt)` (the untrimmed prompt), on success
set response to `result.response`, on a caught throw set error to the
message when it is an Error and to the generic string otherwise, and
finally set isLoading false. -/
def handleSubmit (s : ClientState) (o : FetchOutcome) : SubmitTrace :=
  if jsTrim s.prompt = "" then
    { requests := [], inflight := none, final := s }
  else
    let s1 : ClientState := { s with isLoading := true, error := "", response := "" }
    let sent := sendMessage s.prompt o
    let s2 : ClientState :=
      match sent.2 with
      | .ok r => { s1 with response := r.response }
      | .error t => { s1 with error := caughtMessage t }
    { requests := [sent.1]
      inflight := some s1
      final := { s2 with isLoading := false } }

/-- The disabled attribute on the submit Button in page.tsx:
`disabled={isLoading || !prompt.trim()}`. -/
def submitDisabled (s : ClientState) : Bool :=
  s.isLoading || (jsTrim s.prompt == "")

/-- The disabled attribute on the text Input in page.tsx:
`disabled={isLoading}`. -/
def inputDisabled (s : ClientState) : Bool :=
  s.isLoading

/-- The error card in page.tsx renders only when `error` is truthy, i.e.
a non-empty string; when rendered it shows the error text verbatim. -/
def displayedError (s : ClientState) : Option String :=
  if s.error = "" then none else some s.error

/-- The response card in page.tsx renders only when `response` is truthy,
i.e. a non-empty string; when rendered it shows the response text verbatim
inside a whitespace-pre-wrap paragraph. -/
def displayedResponse (s : ClientState) : Option String :=
  if s.response = "" then none else some s.response

/-! Helper lemmas: projection equations for the two functions, shared by
the claim theorems below. -/

/-- The request side of sendMessage never depends on the outcome. -/
lemma sendMessage_fst (m : String) (o : FetchOutcome) :
    (sendMessage m o).1 =
      { method := "POST", url := API_URL ++ "/api/chat",
        contentType := "application/json", body := { message := m } } := by
  cases o with
  | reject t => rfl
  | respond r => by_cases hr : r.ok <;> simp [sendMessage, hr]

/-- With a blank trimmed prompt the handler is the identity trace. -/
lemma handleSubmit_blank (s : ClientState) (o : FetchOutcome)
    (h : jsTrim s.prompt = "") :
    handleSubmit s o = { requests := [], inflight := none, final := s } := by
  unfold handleSubmit
  simp [h]

/-- With a non-blank trimmed prompt the handler dispatches exactly the
request sendMessage built. -/
lemma handleSubmit_requests (s : ClientState) (o : FetchOutcome)
    (h : jsTrim s.prompt ≠ "") :
    (handleSubmit s o).requests = [(sendMessage s.prompt o).1] := by
  unfold handleSubmit
  rw [if_neg h]

/-- With a non-blank trimmed prompt the in-flight state sets the loading
flag and clears the error and the response. -/
lemma handleSubmit_inflight (s : ClientState) (o : FetchOutcome)
    (h : jsTrim s.prompt ≠ "") :
    (handleSubmit s o).inflight =
      some { s with isLoading := true, error := "", response := "" } := by
  unfold handleSubmit
  rw [if_neg h]

/-- With a non-blank trimmed prompt the final state is determined by the
settled result of sendMessage. -/
lemma handleSubmit_final (s : ClientState) (o : FetchOutcome)
    (h : jsTrim s.prompt ≠ "") :
    (handleSubmit s o).final =
      match (sendMessage s.prompt o).2 with
      | .ok r => { s with isLoading := false, error := "", response := r.response }
      | .error t => { s with isLoading := false, error := caughtMessage t, response := "" } := by
  unfold handleSubmit
  rw [if_neg h]
  cases hres : (sendMessage s.prompt o).2 with
  | ok r => simp [hres]
  | error t => simp [hres]

/-! Theorems settling the claims. -/

/-- C1.  For every prompt whose trimmed form is non-empty, invoking the
submit handler once while no call is in flight produces exactly one
outbound call, a POST to `${API_URL}/api/chat` whose JSON body is
`{ message := p }` with p the prompt exactly as entered, untrimmed. -/
theorem submit_sends_one_exact_post (s : ClientState) (o : FetchOutcome)
    (h : jsTrim s.prompt ≠ "") (hfree : s.isLoading = false) :
    (handleSubmit s o).requests =
      [{ method := "POST", url := API_URL ++ "/api/chat",
         contentType := "application/json", body := { message := s.prompt } }] := by
  unfold handleSubmit sendMessage
  simp only [if_neg h]
  cases o with
  | reject t => rfl
  | respond r => by_cases hr : r.ok <;> simp [hr]

/-- Witness for C1 at the concrete prompt "  hi " (trimmed form non-empty,
not loading): the single request carries the prompt with its whitespace
intact. -/
theorem submit_sends_one_exact_post_witness :
    let s : ClientState := { prompt := "  hi ", response := "", isLoading := false, error := "" }
    jsTrim "  hi " ≠ "" ∧
    (handleSubmit s (.respond { status := 200, body := { response := "ok" } })).requests =
      [{ method := "POST", url := API_URL ++ "/api/chat",
         contentType := "application/json", body := { message := "  hi " } }] := by
  refine ⟨by decide, ?_⟩
  exact submit_sends_one_exact_post _ _ (by decide) rfl

/-- C2.  For every prompt that trims to the empty string, the submit
handler makes zero outbound calls and leaves the client state (including
the loading flag, response and error fields) unchanged. -/
theorem submit_blank_noop (s : ClientState) (o : FetchOutcome)
    (h : jsTrim s.prompt = "") :
    (handleSubmit s o).requests = [] ∧ (handleSubmit s o).final = s := by
  unfold handleSubmit
  simp [h]

/-- Witness for C2 at the whitespace-only prompt consisting of spaces, a
tab and a newline. -/
theorem submit_blank_noop_witness :
    let s : ClientState :=
      { prompt := "  \t\n ", response := "r", isLoading := false, error := "e" }
    jsTrim "  \t\n " = "" ∧
    ((handleSubmit s (.reject .nonError)).requests = [] ∧
      (handleSubmit s (.reject .nonError)).final = s) := by
  exact ⟨by decide, submit_blank_noop _ _ (by decide)⟩

/-- C8.  On a submission whose trimmed prompt is non-empty, the state in
force while the call is awaited has the loading flag set and both the
response and the error reset to the empty string, with the prompt
untouched. -/
theorem submit_inflight_cleared (s : ClientState) (o : FetchOutcome)
    (h : jsTrim s.prompt ≠ "") :
    (handleSubmit s o).inflight =
      some { prompt := s.prompt, response := "", isLoading := true, error := "" } := by
  unfold handleSubmit
  simp [h]

/-- Witness for C8 at a state with a stale response and error present. -/
theorem submit_inflight_cleared_witness :
    let s : ClientState :=
      { prompt := "plan a trip", response := "old", isLoading := false, error := "oops" }
    jsTrim "plan a trip" ≠ "" ∧
    (handleSubmit s (.respond { status := 500, body := { response := "" } })).inflight =
      some { prompt := "plan a trip", response := "", isLoading := true, error := "" } := by
  exact ⟨by decide, submit_inflight_cleared _ _ (by decide)⟩

/-- C9.  Submitting never modifies the prompt field: for every pre-state
and network outcome, the final state holds exactly the prompt the user
entered. -/
theorem submit_preserves_prompt (s : ClientState) (o : FetchOutcome) :
    (handleSubmit s o).final.prompt = s.prompt := by
  unfold handleSubmit sendMessage
  by_cases h : jsTrim s.prompt = "" <;>
    cases o with
    | reject t => cases t <;> simp [h]
    | respond r => by_cases hr : r.ok <;> simp [h, hr]

/-- C3.  On every submission with a non-empty trimmed prompt, the state in
force while the call is awaited has the loading flag true and the submit
control disabled, and the final state after completion (success or
failure) has the loading flag false and the submit control enabled
again. -/
theorem submit_loading_lifecycle (s : ClientState) (o : FetchOutcome)
    (h : jsTrim s.prompt ≠ "") :
    (∀ s1, (handleSubmit s o).inflight = some s1 →
      s1.isLoading = true ∧ submitDisabled s1 = true ∧ inputDisabled s1 = true) ∧
    (handleSubmit s o).inflight ≠ none ∧
    (handleSubmit s o).final.isLoading = false ∧
    submitDisabled (handleSubmit s o).final = false := by
  have hb : (jsTrim s.prompt == "") = false := beq_eq_false_iff_ne.mpr h
  refine ⟨?_, ?_, ?_, ?_⟩
  · intro s1 hs1
    rw [handleSubmit_inflight s o h] at hs1
    obtain rfl := Option.some.inj hs1
    exact ⟨rfl, by simp [submitDisabled], by simp [inputDisabled]⟩
  · rw [handleSubmit_inflight s o h]
    simp
  · rw [handleSubmit_final s o h]
    cases hres : (sendMessage s.prompt o).2 with
    | ok r => simp
    | error t => simp
  · rw [handleSubmit_final s o h]
    cases hres : (sendMessage s.prompt o).2 with
    | ok r => simp [submitDisabled, hb]
    | error t => simp [submitDisabled, hb]

/-- Witness for C3 at a failing call on the prompt "weather". -/
theorem submit_loading_lifecycle_witness :
    jsTrim "weather" ≠ "" ∧
    ((∀ s1, (handleSubmit
          { prompt := "weather", response := "", isLoading := false, error := "" }
          (.reject (.jsError "Failed to fetch"))).inflight = some s1 →
        s1.isLoading = true ∧ submitDisabled s1 = true ∧ inputDisabled s1 = true) ∧
      (handleSubmit
          { prompt := "weather", response := "", isLoading := false, error := "" }
          (.reject (.jsError "Failed to fetch"))).inflight ≠ none ∧
      (handleSubmit
          { prompt := "weather", response := "", isLoading := false, error := "" }
          (.reject (.jsError "Failed to fetch"))).final.isLoading = false ∧
      submitDisabled (handleSubmit
          { prompt := "weather", response := "", isLoading := false, error := "" }
          (.reject (.jsError "Failed to fetch"))).final = false) := by
  exact ⟨by decide, submit_loading_lifecycle _ _ (by decide)⟩

/-- C4 counterexample.  The submit handler is not gated by the loading
flag: in the state with prompt "hi" and isLoading already true, invoking
the handler still dispatches one outbound call, refuting the claim that a
loading state makes the handler itself produce no new call. -/
theorem submit_while_loading_still_calls :
    ({ prompt := "hi", response := "", isLoading := true, error := "" }
        : ClientState).isLoading = true ∧
    (handleSubmit { prompt := "hi", response := "", isLoading := true, error := "" }
        (.respond { status := 200, body := { response := "ok" } })).requests.length = 1 := by
  exact ⟨rfl, by decide⟩

/-- C4 amended.  The handler itself checks only the trimmed prompt, so
invoking it while the loading flag is true dispatches a call exactly when
the trimmed prompt is non-empty; the one-in-flight guarantee instead
rests on the rendering, which disables both the submit control and the
input whenever the loading flag is true. -/
theorem loading_gates_controls_not_handler (s : ClientState) (o : FetchOutcome)
    (h : s.isLoading = true) :
    submitDisabled s = true ∧ inputDisabled s = true ∧
    ((handleSubmit s o).requests = [] ↔ jsTrim s.prompt = "") := by
  refine ⟨by simp [submitDisabled, h], by simp [inputDisabled, h], ?_⟩
  unfold handleSubmit sendMessage
  by_cases hp : jsTrim s.prompt = ""
  · simp [hp]
  · cases o with
    | reject t => simp [hp]
    | respond r => by_cases hr : r.ok <;> simp [hp, hr]

/-- Witness for the amended C4 at a loading state with a whitespace-only
prompt: both controls are disabled and no call goes out. -/
theorem loading_gates_controls_not_handler_witness :
    ({ prompt := " ", response := "", isLoading := true, error := "" }
        : ClientState).isLoading = true ∧
    (submitDisabled { prompt := " ", response := "", isLoading := true, error := "" } = true ∧
      inputDisabled { prompt := " ", response := "", isLoading := true, error := "" } = true ∧
      ((handleSubmit { prompt := " ", response := "", isLoading := true, error := "" }
          (.reject .nonError)).requests = [] ↔ jsTrim " " = "")) := by
  exact ⟨rfl, loading_gates_controls_not_handler _ _ rfl⟩

/-- The message built by sendMessage for a non-ok response is never the
empty string, whatever the status digits are. -/
lemma apiError_ne_empty (x : String) : ("API error: " ++ x) ≠ "" := by
  intro hcon
  have hlen := congrArg String.length hcon
  rw [String.length_append] at hlen
  rw [show ("API error: ").length = 11 from rfl] at hlen
  rw [show ("" : String).length = 0 from rfl] at hlen
  omega

/-- C5 counterexample.  A completed successful submission can show
neither a response nor an error: with prompt "Hello" and a 200 response
whose body text is empty, the final state displays nothing at all,
refuting the never-neither part of the claim. -/
theorem completed_submission_shows_neither :
    jsTrim "Hello" ≠ "" ∧
    (handleSubmit { prompt := "Hello", response := "", isLoading := false, error := "" }
        (.respond { status := 200, body := { response := "" } })).final.isLoading = false ∧
    displayedResponse (handleSubmit
        { prompt := "Hello", response := "", isLoading := false, error := "" }
        (.respond { status := 200, body := { response := "" } })).final = none ∧
    displayedError (handleSubmit
        { prompt := "Hello", response := "", isLoading := false, error := "" }
        (.respond { status := 200, body := { response := "" } })).final = none := by
  decide

/-- C5 amended.  After every completed submission the client shows at
most one of {response text, error text}, never both: on success the
error is not shown and the response is shown exactly when the returned
text is non-empty; on failure the response is not shown and the error is
shown exactly when the caught message is non-empty. -/
theorem submit_display_exclusive (s : ClientState) (o : FetchOutcome)
    (h : jsTrim s.prompt ≠ "") :
    (displayedResponse (handleSubmit s o).final = none ∨
      displayedError (handleSubmit s o).final = none) ∧
    (∀ r : ChatResponse, (sendMessage s.prompt o).2 = .ok r →
      displayedError (handleSubmit s o).final = none ∧
      displayedResponse (handleSubmit s o).final =
        (if r.response = "" then none else some r.response)) ∧
    (∀ t : Thrown, (sendMessage s.prompt o).2 = .error t →
      displayedResponse (handleSubmit s o).final = none ∧
      displayedError (handleSubmit s o).final =
        (if caughtMessage t = "" then none else some (caughtMessage t))) := by
  rw [handleSubmit_final s o h]
  cases hres : (sendMessage s.prompt o).2 with
  | ok r =>
      refine ⟨Or.inr (by simp [displayedError]), ?_, ?_⟩
      · intro r0 h0
        obtain rfl := Except.ok.inj h0
        exact ⟨by simp [displayedError], by simp [displayedResponse]⟩
      · intro t h0
        exact absurd h0 (by simp)
  | error t =>
      refine ⟨Or.inl (by simp [displayedResponse]), ?_, ?_⟩
      · intro r0 h0
        exact absurd h0 (by simp)
      · intro t0 h0
        obtain rfl := Except.error.inj h0
        exact ⟨by simp [displayedResponse], by simp [displayedError]⟩

/-- Witness for the amended C5 at a successful call returning the text
"A". -/
theorem submit_display_exclusive_witness :
    jsTrim "q" ≠ "" ∧
    ((displayedResponse (handleSubmit
          { prompt := "q", response := "", isLoading := false, error := "" }
          (.respond { status := 200, body := { response := "A" } })).final = none ∨
        displayedError (handleSubmit
          { prompt := "q", response := "", isLoading := false, error := "" }
          (.respond { status := 200, body := { response := "A" } })).final = none) ∧
      (∀ r : ChatResponse,
        (sendMessage "q" (.respond { status := 200, body := { response := "A" } })).2 = .ok r →
        displayedError (handleSubmit
            { prompt := "q", response := "", isLoading := false, error := "" }
            (.respond { status := 200, body := { response := "A" } })).final = none ∧
        displayedResponse (handleSubmit
            { prompt := "q", response := "", isLoading := false, error := "" }
            (.respond { status := 200, body := { response := "A" } })).final =
          (if r.response = "" then none else some r.response)) ∧
      (∀ t : Thrown,
        (sendMessage "q" (.respond { status := 200, body := { response := "A" } })).2 = .error t →
        displayedResponse (handleSubmit
            { prompt := "q", response := "", isLoading := false, error := "" }
            (.respond { status := 200, body := { response := "A" } })).final = none ∧
        displayedError (handleSubmit
            { prompt := "q", response := "", isLoading := false, error := "" }
            (.respond { status := 200, body := { response := "A" } })).final =
          (if caughtMessage t = "" then none else some (caughtMessage t)))) := by
  exact ⟨by decide, submit_display_exclusive _ _ (by decide)⟩

/-- C6.  For every response with a non-2xx status, sendMessage settles
with a thrown Error carrying the message "API error: " followed by the
status, that message is non-empty, and the final client state displays
it as the error while no response text is displayed. -/
theorem non2xx_throws_and_displays_error (s : ClientState) (r : HttpResponse)
    (h : jsTrim s.prompt ≠ "") (hr : r.ok = false) :
    (sendMessage s.prompt (.respond r)).2 =
      .error (.jsError ("API error: " ++ toString r.status)) ∧
    ("API error: " ++ toString r.status) ≠ "" ∧
    displayedError (handleSubmit s (.respond r)).final =
      some ("API error: " ++ toString r.status) ∧
    displayedResponse (handleSubmit s (.respond r)).final = none := by
  have hsend : (sendMessage s.prompt (.respond r)).2 =
      .error (.jsError ("API error: " ++ toString r.status)) := by
    simp [sendMessage, hr]
  have hne := apiError_ne_empty (toString r.status)
  refine ⟨hsend, hne, ?_, ?_⟩
  · rw [handleSubmit_final s _ h, hsend]
    simp [displayedError, caughtMessage, hne]
  · rw [handleSubmit_final s _ h, hsend]
    simp [displayedResponse]

/-- Witness for C6 at prompt "hi" and a 500 response. -/
theorem non2xx_throws_and_displays_error_witness :
    jsTrim "hi" ≠ "" ∧
    ({ status := 500, body := { response := "ignored" } } : HttpResponse).ok = false ∧
    ((sendMessage "hi" (.respond { status := 500, body := { response := "ignored" } })).2 =
        .error (.jsError ("API error: " ++ toString 500)) ∧
      ("API error: " ++ toString 500) ≠ "" ∧
      displayedError (handleSubmit
          { prompt := "hi", response := "", isLoading := false, error := "" }
          (.respond { status := 500, body := { response := "ignored" } })).final =
        some ("API error: " ++ toString 500) ∧
      displayedResponse (handleSubmit
          { prompt := "hi", response := "", isLoading := false, error := "" }
          (.respond { status := 500, body := { response := "ignored" } })).final = none) := by
  exact ⟨by decide, by decide,
    non2xx_throws_and_displays_error
      { prompt := "hi", response := "", isLoading := false, error := "" }
      { status := 500, body := { response := "ignored" } } (by decide) (by decide)⟩

/-- C7.  For every successful call (ok status) whose parsed body carries
the text t, the final response state is exactly t, unmodified, no error
is shown, and the response card shows exactly t whenever t is non-empty
(the card is simply absent when t is empty). -/
theorem success_displays_exact_text (s : ClientState) (r : HttpResponse)
    (h : jsTrim s.prompt ≠ "") (hok : r.ok = true) :
    (handleSubmit s (.respond r)).final.response = r.body.response ∧
    displayedError (handleSubmit s (.respond r)).final = none ∧
    displayedResponse (handleSubmit s (.respond r)).final =
      (if r.body.response = "" then none else some r.body.response) := by
  have hsend : (sendMessage s.prompt (.respond r)).2 = .ok r.body := by
    simp [sendMessage, hok]
  rw [handleSubmit_final s _ h, hsend]
  exact ⟨rfl, by simp [displayedError], by simp [displayedResponse]⟩

/-- Witness for C7: the provider text "Paris is lovely" is displayed as
that exact string. -/
theorem success_displays_exact_text_witness :
    jsTrim "Tell me about Paris" ≠ "" ∧
    ({ status := 200, body := { response := "Paris is lovely" } } : HttpResponse).ok = true ∧
    ((handleSubmit
        { prompt := "Tell me about Paris", response := "", isLoading := false, error := "" }
        (.respond { status := 200, body := { response := "Paris is lovely" } })).final.response =
      "Paris is lovely" ∧
    displayedError (handleSubmit
        { prompt := "Tell me about Paris", response := "", isLoading := false, error := "" }
        (.respond { status := 200, body := { response := "Paris is lovely" } })).final = none ∧
    displayedResponse (handleSubmit
        { prompt := "Tell me about Paris", response := "", isLoading := false, error := "" }
        (.respond { status := 200, body := { response := "Paris is lovely" } })).final =
      (if ("Paris is lovely" : String) = "" then none else some "Paris is lovely")) := by
  exact ⟨by decide, by decide, success_displays_exact_text _ _ (by decide) (by decide)⟩

/-- C10.  There is a successful call — status 200 with body text the
empty string — after which the client is not loading and displays
neither a response nor an error: the success path does not distinguish
empty generated text from no output. -/
theorem empty_success_shows_nothing :
    (sendMessage "Hi" (.respond { status := 200, body := { response := "" } })).2 =
      .ok { response := "" } ∧
    (handleSubmit { prompt := "Hi", response := "", isLoading := false, error := "" }
        (.respond { status := 200, body := { response := "" } })).final.isLoading = false ∧
    displayedResponse (handleSubmit
        { prompt := "Hi", response := "", isLoading := false, error := "" }
        (.respond { status := 200, body := { response := "" } })).final = none ∧
    displayedError (handleSubmit
        { prompt := "Hi", response := "", isLoading := false, error := "" }
        (.respond { status := 200, body := { response := "" } })).final = none := by
  exact ⟨rfl, rfl, rfl, rfl⟩
